import Mathlib

/-!
Shallow embedding of the blinky-temperature demo application
(demo/blinky-temperature/src/main.c) and of its generated-template variant
(demo/templates/blinky-temperature/src/main.c, utils.c).

Device I/O is modelled by environment records carrying the return codes the
drivers would produce and the temperature the sensor would deliver; console
output is modelled as a list of structured events.  Temperatures are
rationals, matching the exact-arithmetic reading of the specification.
-/

namespace Blinky


/-- Console output events emitted by the programs (one constructor per
printf or printk call site, carrying the varying fields). -/
inductive Output where
  | bannerArch
  | ledsRegistered (n : Nat)
  | sensorsRegistered (n : Nat)
  | couldNotFetch (ret : Int)
  | couldNotGet (ret : Int)
  | readingTempFailed (ret : Int)
  | tempBelow (t : ℚ)
  | tempAbove (t : ℚ)
  | alertNoValidCondition
  | ledNotReady (name : String)
  | ledConfigFailed (name : String)
  | foundThermometer (name : String)
  | deviceNotReady (name : String)
  | failedToReadTemp (ret : Int)
  | failedToConvert (ret : Int)
  | setLowerLimit (t : ℚ)
  | setUpperLimit (t : ℚ)
  | enabledTriggers
  | sensorReading (name : String) (t : ℚ)
  | templateReadFailed (ret : Int)
  | failedToToggle (name : String)
  | ledStateReport (name : String) (state : Bool)
  deriving DecidableEq

/-- Global mutable state of the demo program: the two threshold globals
low_temp and high_temp, the is_themometer classification array and the
led_state array (main.c lines 14-15, 48-49). -/
structure DemoState where
  low_temp : ℚ
  high_temp : ℚ
  is_themometer : List Bool
  led_state : List Bool
  deriving DecidableEq

/-- read_temperature (main.c lines 51-66): fetch then get; each driver call
returns a code supplied by the environment.  Returns the final ret value and
the error messages printed.  The out-parameter value holds the
environment-supplied temperature whenever the get call ran and did not fail,
which callers read only when ret permits. -/
def read_temperature (fetchRet getRet : Int) : Int × List Output :=
  if fetchRet < 0 then (fetchRet, [.couldNotFetch fetchRet])
  else if getRet < 0 then (getRet, [.couldNotGet getRet])
  else (getRet, [])

/-- temp_alert_handler (main.c lines 68-88): read the triggering sensor,
bail out with a report if the read failed, otherwise classify the value
against the global thresholds.  The state is threaded to make the absence
of mutation provable; temp is the value the driver delivered. -/
def temp_alert_handler (st : DemoState) (fetchRet getRet : Int) (temp : ℚ) :
    DemoState × List Output :=
  let r := read_temperature fetchRet getRet
  if r.1 < 0 then (st, r.2 ++ [.readingTempFailed r.1])
  else if temp ≤ st.low_temp then (st, r.2 ++ [.tempBelow temp])
  else if temp ≥ st.high_temp then (st, r.2 ++ [.tempAbove temp])
  else (st, r.2 ++ [.alertNoValidCondition])

/-- Modelled from the spec: the Alert Dispatcher classification rule of
section 4.3, using the triggering sensor's own ThresholdPair (lower, upper):
value at or below lower gives a below-threshold report, value at or above
upper gives an above-threshold report, anything strictly inside the pair
gives the inconsistency report. -/
def spec_alert_handler (lower upper temp : ℚ) : Output :=
  if temp ≤ lower then .tempBelow temp
  else if temp ≥ upper then .tempAbove temp
  else .alertNoValidCondition

/-- Environment for one LED during startup (main.c lines 104-117):
gpio_is_ready_dt answer and gpio_pin_configure_dt return code. -/
structure LedSpec where
  name : String
  ready : Bool
  configureRet : Int
  deriving DecidableEq

/-- Environment for one sensor during startup (main.c lines 119-169):
friendly name, device_is_ready answer, the calibration read's driver codes
and delivered baseline, the two sensor_value_from_double codes, the two
sensor_attr_set codes and the sensor_trigger_set code. -/
structure SensorSpec where
  devName : String
  friendlyName : String
  ready : Bool
  fetchRet : Int
  getRet : Int
  baseline : ℚ
  lowConvRet : Int
  attrSetLowRet : Int
  highConvRet : Int
  attrSetHighRet : Int
  triggerSetRet : Int
  deriving DecidableEq

/-- Result of running main up to the monitor loop: either an early return
with an exit code, or entry into the loop with the accumulated state. -/
inductive StartupResult where
  | exit (code : Int) (out : List Output)
  | enterLoop (st : DemoState) (out : List Output)
  deriving DecidableEq

/-- The LED startup loop (main.c lines 104-117): a not-ready LED or a failed
configure returns 0 from main; otherwise led_state of each LED is set true.
Successful LED initialization prints nothing. -/
def led_init_loop : List LedSpec → Except (Int × List Output) (List Bool)
  | [] => .ok []
  | led :: rest =>
    if led.ready = false then .error (0, [.ledNotReady led.name])
    else if led.configureRet < 0 then .error (0, [.ledConfigFailed led.name])
    else (led_init_loop rest).map (fun states => true :: states)

/-- One round of the sensor startup loop body (main.c lines 119-168) for one
sensor: classify by friendly name, check readiness (return 0 from main when
not ready), read a baseline (return ret when it fails), set the globals to
baseline plus 0.5 and baseline plus 1.5, convert and install each bound
(conversion failure returns ret; installation failure is only the absence of
the confirmation message), then attempt sensor_trigger_set unconditionally.
Returns the thermometer flag, the new values of the two globals, and the
output. -/
def calibrate_step (s : SensorSpec) :
    Except (Int × List Output) (Bool × ℚ × ℚ × List Output) :=
  let isTh := s.friendlyName = "thermometer"
  let foundOut : List Output := if isTh then [.foundThermometer s.devName] else []
  if s.ready = false then .error (0, foundOut ++ [.deviceNotReady s.devName])
  else
    let r := read_temperature s.fetchRet s.getRet
    if r.1 ≠ 0 then .error (r.1, foundOut ++ r.2 ++ [.failedToReadTemp r.1])
    else
      let low := s.baseline + 1/2
      if s.lowConvRet ≠ 0 then
        .error (s.lowConvRet, foundOut ++ r.2 ++ [.failedToConvert s.lowConvRet])
      else
        let lowOut : List Output :=
          if s.attrSetLowRet = 0 then [.setLowerLimit low] else []
        let high := s.baseline + 3/2
        if s.highConvRet ≠ 0 then
          .error (s.highConvRet,
            foundOut ++ r.2 ++ lowOut ++ [.failedToConvert s.highConvRet])
        else
          let highOut : List Output :=
            if s.attrSetHighRet = 0 then [.setUpperLimit high] else []
          let trigOut : List Output :=
            if s.triggerSetRet = 0 then [.enabledTriggers] else []
          .ok (isTh, low, high, foundOut ++ r.2 ++ lowOut ++ highOut ++ trigOut)

/-- The sensor startup loop (main.c lines 119-169), threading the two global
thresholds (each iteration overwrites them) and collecting the per-sensor
thermometer flags. -/
def sensor_init_loop (low high : ℚ) :
    List SensorSpec → Except (Int × List Output) (List Bool × ℚ × ℚ × List Output)
  | [] => .ok ([], low, high, [])
  | s :: rest =>
    match calibrate_step s with
    | .error e => .error e
    | .ok (isTh, l, h, out) =>
      match sensor_init_loop l h rest with
      | .error (c, out2) => .error (c, out ++ out2)
      | .ok (flags, l2, h2, out2) => .ok (isTh :: flags, l2, h2, out ++ out2)

/-- The full startup environment: the static LED and sensor arrays with
their driver behaviour. -/
structure DemoEnv where
  leds : List LedSpec
  sensors : List SensorSpec
  deriving DecidableEq

/-- Demo main from the banner down to the monitor loop (main.c lines
90-169).  The globals low_temp and high_temp start at 0 (static doubles). -/
def demoStartup (env : DemoEnv) : StartupResult :=
  let banner : List Output :=
    [.bannerArch, .ledsRegistered env.leds.length,
     .sensorsRegistered env.sensors.length]
  match led_init_loop env.leds with
  | .error (c, out) => .exit c (banner ++ out)
  | .ok ledStates =>
    match sensor_init_loop 0 0 env.sensors with
    | .error (c, out2) => .exit c (banner ++ out2)
    | .ok (flags, low, high, out2) =>
      .enterLoop
        { low_temp := low, high_temp := high,
          is_themometer := flags, led_state := ledStates }
        (banner ++ out2)

/-- Projection used to speak about the state a successful startup enters the
monitor loop with. -/
def startupState : StartupResult → Option DemoState
  | .enterLoop st _ => some st
  | .exit _ _ => none

/-- Environment for one sensor slot during one monitor-loop iteration. -/
structure SensorRead where
  devName : String
  fetchRet : Int
  getRet : Int
  temp : ℚ
  deriving DecidableEq

/-- Environment for one LED slot during one monitor-loop iteration:
gpio_pin_toggle_dt return code. -/
structure LedToggle where
  name : String
  toggleRet : Int
  deriving DecidableEq

/-- Driver behaviour for one whole monitor-loop iteration. -/
structure IterEnv where
  sensorReads : List SensorRead
  ledToggles : List LedToggle
  deriving DecidableEq

/-- The sensor half of a monitor-loop iteration (main.c lines 172-183):
skip non-thermometers; on a failed read print the message and break out of
the sensor for-loop (dropping the remaining sensors of this iteration). -/
def demo_sensor_phase : List (SensorRead × Bool) → List Output
  | [] => []
  | (sr, isTh) :: rest =>
    if isTh = false then demo_sensor_phase rest
    else
      let r := read_temperature sr.fetchRet sr.getRet
      if r.1 ≠ 0 then r.2 ++ [.failedToReadTemp r.1]
      else r.2 ++ [.sensorReading sr.devName sr.temp] ++ demo_sensor_phase rest

/-- The LED half of a monitor-loop iteration (main.c lines 185-196): a
failed hardware toggle is only reported; the stored logical flag is inverted
and printed unconditionally. -/
def demo_led_phase : List (LedToggle × Bool) → List Bool × List Output
  | [] => ([], [])
  | (lt, s) :: rest =>
    let failOut : List Output :=
      if lt.toggleRet < 0 then [.failedToToggle lt.name] else []
    let s2 := !s
    let (states, out) := demo_led_phase rest
    (s2 :: states, failOut ++ [.ledStateReport lt.name s2] ++ out)

/-- One full monitor-loop iteration of the demo (main.c lines 171-198),
sleep omitted: sensors first, then LEDs. -/
def demoIteration (env : IterEnv) (st : DemoState) : DemoState × List Output :=
  let sOut := demo_sensor_phase (env.sensorReads.zip st.is_themometer)
  let (newStates, lOut) := demo_led_phase (env.ledToggles.zip st.led_state)
  ({ st with led_state := newStates }, sOut ++ lOut)

/-- Several consecutive monitor-loop iterations of the demo, one
environment per iteration. -/
def demoRun : List IterEnv → DemoState → DemoState × List Output
  | [], st => (st, [])
  | e :: es, st =>
    let p := demoIteration e st
    let q := demoRun es p.1
    (q.1, p.2 ++ q.2)

/-- An LED record of the template variant (utils.h lines 6-10), hardware
handle replaced by the per-call driver codes in the iteration environment. -/
structure TLed where
  name : String
  state : Bool
  deriving DecidableEq

/-- toggle_led_state of the template (utils.c lines 86-100): a failed
hardware toggle returns the error before the stored flag is inverted;
on success the flag is inverted and the new state printed. -/
def toggle_led_state (toggleRet : Int) (led : TLed) :
    Except (Int × List Output) (TLed × List Output) :=
  if toggleRet < 0 then .error (toggleRet, [.failedToToggle led.name])
  else
    let led2 : TLed := { led with state := !led.state }
    .ok (led2, [.ledStateReport led2.name led2.state])

/-- get_temperature of the template (utils.c lines 72-84): NaN (modelled as
none) when the read fails. -/
def get_temperature (fetchRet getRet : Int) (temp : ℚ) : Option ℚ × List Output :=
  let r := read_temperature fetchRet getRet
  if r.1 ≠ 0 then (none, r.2 ++ [.templateReadFailed r.1]) else (some temp, r.2)

/-- Driver behaviour for one iteration of the template's main loop. -/
structure TIterEnv where
  ledToggles : List Int
  thermoReads : List (String × Int × Int × ℚ)
  deriving DecidableEq

/-- The LED part of a template-loop iteration (template main.c lines 60-65):
a negative toggle return makes main return that code. -/
def template_led_loop : List (Int × TLed) → Except (Int × List Output) (List TLed × List Output)
  | [] => .ok ([], [])
  | (tr, led) :: rest =>
    match toggle_led_state tr led with
    | .error e => .error e
    | .ok (led2, out) =>
      match template_led_loop rest with
      | .error (c, out2) => .error (c, out ++ out2)
      | .ok (leds, out2) => .ok (led2 :: leds, out ++ out2)

/-- The thermometer part of a template-loop iteration (template main.c lines
67-73): a NaN temperature makes main return -1; otherwise the reading is
printed. -/
def template_thermo_loop : List (String × Int × Int × ℚ) → Except (Int × List Output) (List Output)
  | [] => .ok []
  | (name, f, g, t) :: rest =>
    match get_temperature f g t with
    | (none, out) => .error (-1, out)
    | (some temp, out) =>
      match template_thermo_loop rest with
      | .error (c, out2) => .error (c, out ++ [.sensorReading name temp] ++ out2)
      | .ok out2 => .ok (out ++ [.sensorReading name temp] ++ out2)

/-- One full iteration of the template's main loop (template main.c lines
57-76), sleep omitted: LEDs first, then thermometers; any error return
propagates out of main, terminating the loop. -/
def templateIteration (env : TIterEnv) (leds : List TLed) :
    Except (Int × List Output) (List TLed × List Output) :=
  match template_led_loop (env.ledToggles.zip leds) with
  | .error e => .error e
  | .ok (leds2, out1) =>
    match template_thermo_loop env.thermoReads with
    | .error (c, out2) => .error (c, out1 ++ out2)
    | .ok out2 => .ok (leds2, out1 ++ out2)

/-- Marker for the two not-ready messages of startup validation. -/
def Output.isNotReadyMsg : Output → Bool
  | .ledNotReady _ => true
  | .deviceNotReady _ => true
  | _ => false

/-- Marker for the startup messages that accompany a nonzero early return:
a failed baseline read or a failed threshold conversion. -/
def Output.isConvFailMsg : Output → Bool
  | .failedToReadTemp _ => true
  | .failedToConvert _ => true
  | _ => false

/-- Marker for the per-iteration LED state reports. -/
def Output.isLedReport : Output → Bool
  | .ledStateReport _ _ => true
  | _ => false

/-- The console output of one pass of the calibration body on whose success
path the readiness check, the baseline read and both conversions succeeded,
as a function of the driver return codes. -/
def calibration_output (s : SensorSpec) : List Output :=
  (if s.friendlyName = "thermometer" then [Output.foundThermometer s.devName] else []) ++
    (read_temperature s.fetchRet s.getRet).2 ++
    (if s.attrSetLowRet = 0 then [Output.setLowerLimit (s.baseline + 1/2)] else []) ++
    (if s.attrSetHighRet = 0 then [Output.setUpperLimit (s.baseline + 3/2)] else []) ++
    (if s.triggerSetRet = 0 then [Output.enabledTriggers] else [])

/-- State used by the concrete witnesses. -/
def stW : DemoState :=
  { low_temp := 1, high_temp := 2, is_themometer := [true], led_state := [true] }

/-- A fully functional thermometer sensor whose baseline reads 20 degrees. -/
def sensor20 : SensorSpec :=
  { devName := "A", friendlyName := "thermometer", ready := true,
    fetchRet := 0, getRet := 0, baseline := 20, lowConvRet := 0,
    attrSetLowRet := 0, highConvRet := 0, attrSetHighRet := 0, triggerSetRet := 0 }

/-- Startup environment with one ready LED and the baseline-20 thermometer. -/
def env20 : DemoEnv :=
  { leds := [{ name := "led0", ready := true, configureRet := 0 }],
    sensors := [sensor20] }

/-- The state env20's startup enters the monitor loop with. -/
def st20 : DemoState :=
  { low_temp := 41/2, high_temp := 43/2, is_themometer := [true], led_state := [true] }

/-- The console output of env20's successful startup. -/
def out20 : List Output :=
  [.bannerArch, .ledsRegistered 1, .sensorsRegistered 1, .foundThermometer "A",
   .setLowerLimit (41/2), .setUpperLimit (43/2), .enabledTriggers]

/-- A thermometer whose two threshold installations fail but whose trigger
registration succeeds. -/
def sensorAttrFail : SensorSpec :=
  { devName := "t0", friendlyName := "thermometer", ready := true,
    fetchRet := 0, getRet := 0, baseline := 20,
    lowConvRet := 0, attrSetLowRet := -5, highConvRet := 0,
    attrSetHighRet := -5, triggerSetRet := 0 }

/-- State for the C1 counterexample: two thermometers, one LED. -/
def cexSt : DemoState :=
  { low_temp := 41/2, high_temp := 43/2, is_themometer := [true, true],
    led_state := [true] }

/-- Iteration environment for the C1 counterexample: thermometer A's fetch
fails, thermometer B's read would succeed, the LED toggle succeeds. -/
def cexEnv : IterEnv :=
  { sensorReads :=
      [{ devName := "A", fetchRet := -1, getRet := 0, temp := 21 },
       { devName := "B", fetchRet := 0, getRet := 0, temp := 25 }],
    ledToggles := [{ name := "led0", toggleRet := 0 }] }

/-- Iteration environment with one LED and no sensor reads, used by
witnesses. -/
def iterEnvW : IterEnv :=
  { sensorReads := [], ledToggles := [{ name := "led0", toggleRet := 0 }] }

/-- Startup environment whose only sensor is not ready. -/
def envNR : DemoEnv :=
  { leds := [{ name := "led0", ready := true, configureRet := 0 }],
    sensors :=
      [{ devName := "X", friendlyName := "thermometer", ready := false,
         fetchRet := 0, getRet := 0, baseline := 0, lowConvRet := 0,
         attrSetLowRet := 0, highConvRet := 0, attrSetHighRet := 0,
         triggerSetRet := 0 }] }

/-- Startup environment whose only sensor fails its baseline fetch with -7. -/
def envRF : DemoEnv :=
  { leds := [{ name := "led0", ready := true, configureRet := 0 }],
    sensors :=
      [{ devName := "Y", friendlyName := "thermometer", ready := true,
         fetchRet := -7, getRet := 0, baseline := 0, lowConvRet := 0,
         attrSetLowRet := 0, highConvRet := 0, attrSetHighRet := 0,
         triggerSetRet := 0 }] }

/-- The output of the failed startup of envRF. -/
def outRFW : List Output :=
  [.bannerArch, .ledsRegistered 1, .sensorsRegistered 1, .foundThermometer "Y",
   .couldNotFetch (-7), .failedToReadTemp (-7)]

/-- Two fully functional thermometers: A with baseline 20 and B with
baseline 30, plus one ready LED. -/
def envAB : DemoEnv :=
  { leds := [{ name := "led0", ready := true, configureRet := 0 }],
    sensors :=
      [{ devName := "A", friendlyName := "thermometer", ready := true,
         fetchRet := 0, getRet := 0, baseline := 20,
         lowConvRet := 0, attrSetLowRet := 0, highConvRet := 0,
         attrSetHighRet := 0, triggerSetRet := 0 },
       { devName := "B", friendlyName := "thermometer", ready := true,
         fetchRet := 0, getRet := 0, baseline := 30,
         lowConvRet := 0, attrSetLowRet := 0, highConvRet := 0,
         attrSetHighRet := 0, triggerSetRet := 0 }] }

lemma read_temperature_of_ret_zero (f g : Int) (h : (read_temperature f g).1 = 0) :
    read_temperature f g = (0, []) := by
  unfold read_temperature at *
  split at h
  · omega
  · split at h
    · omega
    · simp_all

lemma temp_alert_handler_ok (st : DemoState) (t : ℚ) :
    temp_alert_handler st 0 0 t = (st, [spec_alert_handler st.low_temp st.high_temp t]) := by
  simp only [temp_alert_handler, read_temperature, spec_alert_handler]
  norm_num
  split_ifs <;> simp

lemma calibrate_step_ok_bounds (s : SensorSpec) (isTh : Bool) (l h : ℚ) (out : List Output)
    (hok : calibrate_step s = .ok (isTh, l, h, out)) :
    l = s.baseline + 1/2 ∧ h = s.baseline + 3/2 := by
  simp only [calibrate_step] at hok
  split_ifs at hok <;> simp_all

lemma demo_led_phase_fst (l : List (LedToggle × Bool)) :
    (demo_led_phase l).1 = l.map (fun p => !p.2) := by
  induction l with
  | nil => rfl
  | cons p rest ih =>
    cases p with
    | mk lt s => simp [demo_led_phase, ih]

lemma demo_led_phase_count (l : List (LedToggle × Bool)) :
    (demo_led_phase l).2.countP Output.isLedReport = l.length := by
  induction l with
  | nil => rfl
  | cons p rest ih =>
    cases p with
    | mk lt s =>
      by_cases h : lt.toggleRet < 0 <;>
        simp [demo_led_phase, h, List.countP_append, List.countP_cons,
          Output.isLedReport, ih]

lemma read_temperature_no_led_report (f g : Int) :
    (read_temperature f g).2.countP Output.isLedReport = 0 := by
  unfold read_temperature
  split_ifs <;> simp [Output.isLedReport]

lemma demo_sensor_phase_no_led_report (l : List (SensorRead × Bool)) :
    (demo_sensor_phase l).countP Output.isLedReport = 0 := by
  induction l with
  | nil => rfl
  | cons p rest ih =>
    cases p with
    | mk sr isTh =>
      cases isTh
      · simp [demo_sensor_phase, ih]
      · by_cases h : (read_temperature sr.fetchRet sr.getRet).1 ≠ 0 <;>
          simp [demo_sensor_phase, h, List.countP_append, List.countP_cons,
            Output.isLedReport, read_temperature_no_led_report, ih]

lemma zip_map_not_snd (ts : List LedToggle) (ss : List Bool)
    (h : ts.length = ss.length) :
    ((ts.zip ss).map fun p => !p.2) = ss.map (fun b => !b) := by
  induction ts generalizing ss with
  | nil =>
    cases ss with
    | nil => rfl
    | cons b bs => simp at h
  | cons t ts ih =>
    cases ss with
    | nil => simp at h
    | cons b bs =>
      simp only [List.length_cons, Nat.add_right_cancel_iff] at h
      simp [List.zip_cons_cons, ih bs h]

lemma demoIteration_state (e : IterEnv) (st : DemoState)
    (h : e.ledToggles.length = st.led_state.length) :
    (demoIteration e st).1 =
      { st with led_state := st.led_state.map (fun b => !b) } := by
  simp only [demoIteration, demo_led_phase_fst, zip_map_not_snd _ _ h]

lemma demoIteration_count (e : IterEnv) (st : DemoState)
    (h : e.ledToggles.length = st.led_state.length) :
    (demoIteration e st).2.countP Output.isLedReport = st.led_state.length := by
  simp only [demoIteration]
  rw [List.countP_append, demo_sensor_phase_no_led_report, demo_led_phase_count]
  simp [List.length_zip, h]

lemma demoRun_led_state (envs : List IterEnv) : ∀ (st : DemoState) (i : Nat) (b : Bool),
    (∀ e ∈ envs, e.ledToggles.length = st.led_state.length) →
    st.led_state[i]? = some b →
    (demoRun envs st).1.led_state[i]? = some (b == (envs.length % 2 == 0)) := by
  induction envs with
  | nil =>
    intro st i b _ hb
    simpa using hb
  | cons e es ih =>
    intro st i b hlen hb
    have hl := hlen e (List.mem_cons_self e es)
    have hstep := demoIteration_state e st hl
    have hlen2 : ∀ e2 ∈ es, e2.ledToggles.length = (demoIteration e st).1.led_state.length := by
      intro e2 he2
      rw [hstep]
      simpa using hlen e2 (List.mem_cons_of_mem e he2)
    have hb2 : (demoIteration e st).1.led_state[i]? = some (!b) := by
      rw [hstep]
      simp [List.getElem?_map, hb]
    have hrec := ih (demoIteration e st).1 i (!b) hlen2 hb2
    have hrun : (demoRun (e :: es) st).1 = (demoRun es (demoIteration e st).1).1 := rfl
    rw [hrun, hrec]
    congr 1
    rcases Nat.mod_two_eq_zero_or_one es.length with h2 | h2
    · have h3 : (es.length + 1) % 2 = 1 := by omega
      cases b <;> simp [List.length_cons, h2, h3]
    · have h3 : (es.length + 1) % 2 = 0 := by omega
      cases b <;> simp [List.length_cons, h2, h3]

lemma read_temperature_no_notReady (f g : Int) :
    (read_temperature f g).2.any Output.isNotReadyMsg = false := by
  unfold read_temperature
  split_ifs <;> simp [Output.isNotReadyMsg]

lemma read_temperature_no_convFail (f g : Int) :
    (read_temperature f g).2.any Output.isConvFailMsg = false := by
  unfold read_temperature
  split_ifs <;> simp [Output.isConvFailMsg]

lemma calibrate_step_error_markers (s : SensorSpec) (c : Int) (out : List Output)
    (herr : calibrate_step s = .error (c, out)) :
    (out.any Output.isNotReadyMsg = true → c = 0) ∧
    (out.any Output.isConvFailMsg = true → c ≠ 0) := by
  simp only [calibrate_step] at herr
  split_ifs at herr <;>
  · first
    | exact Except.noConfusion herr
    | simp only [Except.error.injEq, Prod.mk.injEq] at herr
      obtain ⟨hc, hout⟩ := herr
      subst hc
      subst hout
      refine ⟨fun hany => ?_, fun hany => ?_⟩ <;>
        simp [List.any_append, List.any_cons, Output.isNotReadyMsg, Output.isConvFailMsg,
          read_temperature_no_notReady, read_temperature_no_convFail] at hany ⊢ <;>
        try assumption

lemma calibrate_step_ok_no_markers (s : SensorSpec) (isTh : Bool) (l h : ℚ)
    (out : List Output) (hok : calibrate_step s = .ok (isTh, l, h, out)) :
    out.any Output.isNotReadyMsg = false ∧ out.any Output.isConvFailMsg = false := by
  simp only [calibrate_step] at hok
  split_ifs at hok <;>
  · first
    | exact Except.noConfusion hok
    | simp only [Except.ok.injEq, Prod.mk.injEq] at hok
      obtain ⟨h1, h2, h3, hout⟩ := hok
      subst hout
      constructor <;>
        simp [List.any_append, List.any_cons, Output.isNotReadyMsg, Output.isConvFailMsg,
          read_temperature_no_notReady, read_temperature_no_convFail]

lemma sensor_init_loop_error_markers (ss : List SensorSpec) :
    ∀ (low high : ℚ) (c : Int) (out : List Output),
    sensor_init_loop low high ss = .error (c, out) →
    (out.any Output.isNotReadyMsg = true → c = 0) ∧
    (out.any Output.isConvFailMsg = true → c ≠ 0) := by
  induction ss with
  | nil =>
    intro low high c out h
    simp [sensor_init_loop] at h
  | cons s rest ih =>
    intro low high c out h
    simp only [sensor_init_loop] at h
    cases hstep : calibrate_step s with
    | error e =>
      rw [hstep] at h
      dsimp only at h
      cases e with
      | mk c2 out2 =>
        simp only [Except.error.injEq, Prod.mk.injEq] at h
        obtain ⟨hc, hout⟩ := h
        subst hc
        subst hout
        exact calibrate_step_error_markers s c2 out2 hstep
    | ok v =>
      obtain ⟨isTh, l1, h1, out1⟩ := v
      rw [hstep] at h
      dsimp only at h
      cases hrec : sensor_init_loop l1 h1 rest with
      | error e =>
        rw [hrec] at h
        dsimp only at h
        cases e with
        | mk c2 out2 =>
          simp only [Except.error.injEq, Prod.mk.injEq] at h
          obtain ⟨hc, hout⟩ := h
          subst hc
          subst hout
          obtain ⟨hn1, hc1⟩ := calibrate_step_ok_no_markers s isTh l1 h1 out1 hstep
          obtain ⟨hn2, hc2⟩ := ih l1 h1 c2 out2 hrec
          constructor
          · intro hany
            rw [List.any_append, hn1, Bool.false_or] at hany
            exact hn2 hany
          · intro hany
            rw [List.any_append, hc1, Bool.false_or] at hany
            exact hc2 hany
      | ok v2 =>
        obtain ⟨flags, l2, h2, out2⟩ := v2
        rw [hrec] at h
        dsimp only at h
        exact Except.noConfusion h

lemma led_init_loop_error (leds : List LedSpec) :
    ∀ (c : Int) (out : List Output),
    led_init_loop leds = .error (c, out) →
    c = 0 ∧ out.any Output.isConvFailMsg = false := by
  induction leds with
  | nil =>
    intro c out h
    simp [led_init_loop] at h
  | cons led rest ih =>
    intro c out h
    simp only [led_init_loop] at h
    split_ifs at h
    · simp only [Except.error.injEq, Prod.mk.injEq] at h
      obtain ⟨hc, hout⟩ := h
      subst hc
      subst hout
      simp [Output.isConvFailMsg]
    · simp only [Except.error.injEq, Prod.mk.injEq] at h
      obtain ⟨hc, hout⟩ := h
      subst hc
      subst hout
      simp [Output.isConvFailMsg]
    · cases hrec : led_init_loop rest with
      | error e =>
        rw [hrec] at h
        cases e with
        | mk c2 out2 =>
          simp only [Except.map, Except.error.injEq, Prod.mk.injEq] at h
          obtain ⟨hc, hout⟩ := h
          subst hc
          subst hout
          exact ih c2 out2 hrec
      | ok v =>
        rw [hrec] at h
        simp [Except.map] at h

lemma led_init_loop_not_ready (leds : List LedSpec) :
    leds.any (fun l => !l.ready) = true →
    ∃ c out, led_init_loop leds = .error (c, out) := by
  induction leds with
  | nil =>
    intro h
    simp at h
  | cons led rest ih =>
    intro h
    simp only [led_init_loop]
    by_cases h1 : led.ready = false
    · exact ⟨0, [.ledNotReady led.name], by simp [h1]⟩
    · by_cases h2 : led.configureRet < 0
      · exact ⟨0, [.ledConfigFailed led.name], by simp [h1, h2]⟩
      · have hrest : rest.any (fun l => !l.ready) = true := by
          rcases List.any_eq_true.mp h with ⟨x, hx, hpx⟩
          rcases List.mem_cons.mp hx with rfl | hx2
          · exact absurd (by simpa using hpx) h1
          · exact List.any_eq_true.mpr ⟨x, hx2, hpx⟩
        obtain ⟨c, out, hrec⟩ := ih hrest
        exact ⟨c, out, by simp [h1, h2, hrec, Except.map]⟩

lemma calibrate_step_of_not_ready (s : SensorSpec) (h : s.ready = false) :
    calibrate_step s = .error (0,
      (if s.friendlyName = "thermometer" then [Output.foundThermometer s.devName]
        else []) ++ [Output.deviceNotReady s.devName]) := by
  simp [calibrate_step, h]

lemma sensor_init_loop_not_ready (ss : List SensorSpec) :
    ∀ low high : ℚ, ss.any (fun s => !s.ready) = true →
    ∃ c out, sensor_init_loop low high ss = .error (c, out) := by
  induction ss with
  | nil =>
    intro low high h
    simp at h
  | cons s rest ih =>
    intro low high h
    simp only [sensor_init_loop]
    cases hstep : calibrate_step s with
    | error e =>
      exact ⟨e.1, e.2, rfl⟩
    | ok v =>
      have hsr : s.ready = true := by
        cases hready : s.ready
        · rw [calibrate_step_of_not_ready s hready] at hstep
          exact Except.noConfusion hstep
        · rfl
      have hrest : rest.any (fun s => !s.ready) = true := by
        rcases List.any_eq_true.mp h with ⟨x, hx, hpx⟩
        rcases List.mem_cons.mp hx with rfl | hx2
        · rw [hsr] at hpx
          exact absurd hpx (by simp)
        · exact List.any_eq_true.mpr ⟨x, hx2, hpx⟩
      obtain ⟨isTh, l1, h1, out1⟩ := v
      obtain ⟨c, out, hrec⟩ := ih l1 h1 hrest
      exact ⟨c, out1 ++ out, by dsimp only; rw [hrec]⟩

lemma sensor_init_loop_last (ss : List SensorSpec) :
    ∀ (low high : ℚ) (flags : List Bool) (l2 h2 : ℚ) (out : List Output) (s : SensorSpec),
    sensor_init_loop low high ss = .ok (flags, l2, h2, out) →
    ss.getLast? = some s →
    l2 = s.baseline + 1/2 ∧ h2 = s.baseline + 3/2 := by
  induction ss with
  | nil =>
    intro low high flags l2 h2 out s hok hlast
    simp at hlast
  | cons s0 rest ih =>
    intro low high flags l2 h2 out s hok hlast
    simp only [sensor_init_loop] at hok
    cases hstep : calibrate_step s0 with
    | error e =>
      rw [hstep] at hok
      dsimp only at hok
      exact Except.noConfusion hok
    | ok v =>
      obtain ⟨isTh, l1, h1, out1⟩ := v
      rw [hstep] at hok
      dsimp only at hok
      cases rest with
      | nil =>
        simp only [sensor_init_loop] at hok
        simp only [Except.ok.injEq, Prod.mk.injEq] at hok
        obtain ⟨-, hl, hh, -⟩ := hok
        have hs : s0 = s := by simpa using hlast
        subst hs
        obtain ⟨hb1, hb2⟩ := calibrate_step_ok_bounds s0 isTh l1 h1 out1 hstep
        subst hl
        subst hh
        exact ⟨hb1, hb2⟩
      | cons s1 rest2 =>
        have hlast2 : (s1 :: rest2).getLast? = some s := by
          rw [List.getLast?_cons_cons] at hlast
          exact hlast
        cases hrec : sensor_init_loop l1 h1 (s1 :: rest2) with
        | error e =>
          rw [hrec] at hok
          dsimp only at hok
          exact Except.noConfusion hok
        | ok v2 =>
          obtain ⟨flags2, l3, h3, out2⟩ := v2
          rw [hrec] at hok
          dsimp only at hok
          simp only [Except.ok.injEq, Prod.mk.injEq] at hok
          obtain ⟨-, hl, hh, -⟩ := hok
          obtain ⟨hr1, hr2⟩ := ih l1 h1 flags2 l3 h3 out2 s hrec hlast2
          subst hl
          subst hh
          exact ⟨hr1, hr2⟩

/-- Counterexample to claim C1: in an iteration where thermometer A's read
fails, thermometer B - whose read succeeds in isolation - is never read: its
reading is absent from the iteration output, because the demo's sensor loop
breaks out on the first failed read instead of continuing. -/
theorem claim_C1_counterexample :
    demo_sensor_phase [({ devName := "B", fetchRet := 0, getRet := 0, temp := 25 }, true)] =
      [.sensorReading "B" 25] ∧
    (demoIteration cexEnv cexSt).2 =
      [.couldNotFetch (-1), .failedToReadTemp (-1), .ledStateReport "led0" false] ∧
    Output.sensorReading "B" 25 ∉ (demoIteration cexEnv cexSt).2 := by
  refine ⟨?_, ?_, ?_⟩
  · norm_num [demo_sensor_phase, read_temperature]
  · norm_num [cexEnv, cexSt, demoIteration, demo_sensor_phase, demo_led_phase,
      read_temperature]
  · decide

/-- Claim C1 as amended: a failed thermometer read is reported and ends the
sensor half of the iteration - the output does not depend on the remaining
sensors, so they are not read - while every actuator of the iteration is
still toggled: each stored LED flag is inverted and each LED state is
reported. -/
theorem claim_C1_amended :
    (∀ (sr : SensorRead) (rest : List (SensorRead × Bool)),
      (read_temperature sr.fetchRet sr.getRet).1 ≠ 0 →
      demo_sensor_phase ((sr, true) :: rest) =
        (read_temperature sr.fetchRet sr.getRet).2 ++
          [.failedToReadTemp (read_temperature sr.fetchRet sr.getRet).1]) ∧
    (∀ (env : IterEnv) (st : DemoState),
      env.ledToggles.length = st.led_state.length →
      (demoIteration env st).1.led_state = st.led_state.map (fun b => !b) ∧
      (demoIteration env st).2.countP Output.isLedReport = st.led_state.length) := by
  constructor
  · intro sr rest h
    simp [demo_sensor_phase, h]
  · intro env st h
    refine ⟨?_, demoIteration_count env st h⟩
    rw [demoIteration_state env st h]

/-- Witness for the amended C1 on the concrete failing iteration. -/
theorem claim_C1_witness :
    demo_sensor_phase [({ devName := "A", fetchRet := -1, getRet := 0, temp := 21 }, true),
        ({ devName := "B", fetchRet := 0, getRet := 0, temp := 25 }, true)] =
      (read_temperature (-1) 0).2 ++ [.failedToReadTemp (read_temperature (-1) 0).1] ∧
    (demoIteration cexEnv cexSt).1.led_state = [false] ∧
    (demoIteration cexEnv cexSt).2.countP Output.isLedReport = 1 := by
  have h1 := claim_C1_amended.1 { devName := "A", fetchRet := -1, getRet := 0, temp := 21 }
    [({ devName := "B", fetchRet := 0, getRet := 0, temp := 25 }, true)]
    (by norm_num [read_temperature])
  have h2 := claim_C1_amended.2 cexEnv cexSt (by norm_num [cexEnv, cexSt])
  exact ⟨h1, by simpa [cexSt] using h2.1, by simpa [cexSt] using h2.2⟩

/-- Counterexample to claim C2: after calibrating sensors A (baseline 20)
and B (baseline 30), the single global lower threshold holds B's bound
30.5, not A's bound 20.5; a dispatch for sensor A reading 21.0 - strictly
inside A's own pair (20.5, 21.5), so the per-sensor rule of the claim
demands the inconsistency report - instead reports below-threshold, because
the comparison uses the last sensor's bounds. -/
theorem claim_C2_counterexample :
    (startupState (demoStartup envAB)).map (fun st => st.low_temp) = some (61/2) ∧
    (61 : ℚ)/2 ≠ 20 + 1/2 ∧
    (startupState (demoStartup envAB)).map
      (fun st => (temp_alert_handler st 0 0 21).2) = some [.tempBelow 21] ∧
    spec_alert_handler (20 + 1/2) (20 + 3/2) 21 = .alertNoValidCondition := by
  refine ⟨?_, by norm_num, ?_, by norm_num [spec_alert_handler]⟩
  · norm_num [envAB, demoStartup, led_init_loop, sensor_init_loop, calibrate_step,
      read_temperature, startupState, Except.map]
  · norm_num [envAB, demoStartup, led_init_loop, sensor_init_loop, calibrate_step,
      read_temperature, startupState, temp_alert_handler, Except.map]

/-- Claim C2 as amended: the dispatcher always compares against the single
global pair of thresholds, which after startup holds the bounds computed
from the last calibrated sensor's baseline, not the triggering sensor's
own; with exactly one sensor the two coincide. -/
theorem claim_C2_amended : ∀ (env : DemoEnv) (st : DemoState) (out : List Output)
    (s : SensorSpec),
    demoStartup env = .enterLoop st out →
    env.sensors.getLast? = some s →
    st.low_temp = s.baseline + 1/2 ∧ st.high_temp = s.baseline + 3/2 ∧
    ∀ t : ℚ, temp_alert_handler st 0 0 t =
      (st, [spec_alert_handler st.low_temp st.high_temp t]) := by
  intro env st out s henter hlast
  simp only [demoStartup] at henter
  cases hled : led_init_loop env.leds with
  | error e =>
    rw [hled] at henter
    cases e with
    | mk c2 out2 =>
      dsimp only at henter
      exact StartupResult.noConfusion henter
  | ok states =>
    rw [hled] at henter
    dsimp only at henter
    cases hsens : sensor_init_loop 0 0 env.sensors with
    | error e =>
      rw [hsens] at henter
      cases e with
      | mk c2 out2 =>
        dsimp only at henter
        exact StartupResult.noConfusion henter
    | ok v =>
      obtain ⟨flags, low, high, out2⟩ := v
      rw [hsens] at henter
      dsimp only at henter
      simp only [StartupResult.enterLoop.injEq] at henter
      obtain ⟨hst, -⟩ := henter
      obtain ⟨h1, h2⟩ := sensor_init_loop_last env.sensors 0 0 flags low high out2 s hsens hlast
      subst hst
      exact ⟨h1, h2, fun t => temp_alert_handler_ok _ t⟩

/-- Witness for the amended C2 on the single-sensor startup env20. -/
theorem claim_C2_witness :
    st20.low_temp = sensor20.baseline + 1/2 ∧ st20.high_temp = sensor20.baseline + 3/2 ∧
    temp_alert_handler st20 0 0 21 =
      (st20, [spec_alert_handler st20.low_temp st20.high_temp 21]) := by
  have h := claim_C2_amended env20 st20 out20 sensor20
    (by norm_num [env20, sensor20, st20, out20, demoStartup, led_init_loop,
      sensor_init_loop, calibrate_step, read_temperature, Except.map])
    (by simp [env20])
  exact ⟨h.1, h.2.1, h.2.2 21⟩

/-- Claim C3: the dispatcher classifies a successfully read value against the
stored bounds exactly as the spec rule states, and with baseline 20 (bounds
20.5 and 21.5) reads of 20.3, 21.6 and 21.0 degrees produce the below,
above and inconsistency reports respectively. -/
theorem claim_C3 :
    (∀ (st : DemoState) (t : ℚ), temp_alert_handler st 0 0 t =
      (st, [spec_alert_handler st.low_temp st.high_temp t])) ∧
    startupState (demoStartup env20) = some st20 ∧
    (temp_alert_handler st20 0 0 (203/10)).2 = [.tempBelow (203/10)] ∧
    (temp_alert_handler st20 0 0 (108/5)).2 = [.tempAbove (108/5)] ∧
    (temp_alert_handler st20 0 0 21).2 = [.alertNoValidCondition] := by
  refine ⟨temp_alert_handler_ok, ?_, ?_, ?_, ?_⟩
  · norm_num [env20, sensor20, st20, demoStartup, led_init_loop, sensor_init_loop,
      calibrate_step, read_temperature, startupState, Except.map]
  · norm_num [st20, temp_alert_handler, read_temperature]
  · norm_num [st20, temp_alert_handler, read_temperature]
  · norm_num [st20, temp_alert_handler, read_temperature]

/-- Claim C4: whenever calibration of a sensor completes, the bounds are
baseline plus one half and baseline plus three halves, so their difference is
exactly one, the lower offset exactly one half, and lower is strictly below
upper. -/
theorem claim_C4 : ∀ (s : SensorSpec) (isTh : Bool) (l h : ℚ) (out : List Output),
    calibrate_step s = .ok (isTh, l, h, out) →
    l = s.baseline + 1/2 ∧ h = s.baseline + 3/2 ∧
    h - l = 1 ∧ l - s.baseline = 1/2 ∧ l < h := by
  intro s isTh l h out hok
  obtain ⟨hl, hh⟩ := calibrate_step_ok_bounds s isTh l h out hok
  subst hl; subst hh
  refine ⟨rfl, rfl, by ring, by ring, by linarith⟩

/-- Witness for C4 on the baseline-20 sensor. -/
theorem claim_C4_witness :
    (41/2 : ℚ) = sensor20.baseline + 1/2 ∧ (43/2 : ℚ) = sensor20.baseline + 3/2 ∧
    (43/2 : ℚ) - 41/2 = 1 ∧ (41/2 : ℚ) - sensor20.baseline = 1/2 ∧ (41/2 : ℚ) < 43/2 :=
  claim_C4 sensor20 true (41/2) (43/2)
    [.foundThermometer "A", .setLowerLimit (41/2), .setUpperLimit (43/2), .enabledTriggers]
    (by norm_num [sensor20, calibrate_step, read_temperature])

/-- Counterexample to claim C5: on a sensor for which both threshold
installations fail, calibration still attempts the trigger registration,
which succeeds and prints its confirmation; so registration is not gated on
a successful attribute installation and nothing like a trigger-armed
conjunction of both bounds and the registration exists. -/
theorem claim_C5_counterexample :
    sensorAttrFail.attrSetLowRet ≠ 0 ∧ sensorAttrFail.attrSetHighRet ≠ 0 ∧
    calibrate_step sensorAttrFail =
      .ok (true, 41/2, 43/2, [.foundThermometer "t0", .enabledTriggers]) := by
  refine ⟨by norm_num [sensorAttrFail], by norm_num [sensorAttrFail], ?_⟩
  norm_num [sensorAttrFail, calibrate_step, read_temperature]

/-- Claim C5 as amended: on any sensor whose baseline read and the two
threshold conversions succeed, the trigger registration is attempted
unconditionally - with no hypothesis on either attribute installation - and
the only record of registration success is the printed confirmation, present
iff sensor_trigger_set returned 0. -/
theorem claim_C5_amended : ∀ s : SensorSpec,
    s.ready = true → (read_temperature s.fetchRet s.getRet).1 = 0 →
    s.lowConvRet = 0 → s.highConvRet = 0 →
    calibrate_step s = .ok (decide (s.friendlyName = "thermometer"),
      s.baseline + 1/2, s.baseline + 3/2, calibration_output s) ∧
    ((Output.enabledTriggers ∈ calibration_output s) ↔ s.triggerSetRet = 0) := by
  intro s hr hread hlc hhc
  have hrt := read_temperature_of_ret_zero _ _ hread
  constructor
  · simp only [calibrate_step, calibration_output, hr, hread, hlc, hhc]
    norm_num
  · rw [calibration_output, hrt]
    by_cases ht : s.triggerSetRet = 0 <;>
      by_cases hf : s.friendlyName = "thermometer" <;>
      by_cases ha : s.attrSetLowRet = 0 <;>
      by_cases hb : s.attrSetHighRet = 0 <;>
      simp [ht, hf, ha, hb]

/-- Witness for the amended C5 on the concrete sensor with failing attribute
installations. -/
theorem claim_C5_witness :
    calibrate_step sensorAttrFail =
      .ok (decide (sensorAttrFail.friendlyName = "thermometer"),
        sensorAttrFail.baseline + 1/2, sensorAttrFail.baseline + 3/2,
        calibration_output sensorAttrFail) ∧
    ((Output.enabledTriggers ∈ calibration_output sensorAttrFail) ↔
      sensorAttrFail.triggerSetRet = 0) :=
  claim_C5_amended sensorAttrFail (by norm_num [sensorAttrFail])
    (by norm_num [sensorAttrFail, read_temperature])
    (by norm_num [sensorAttrFail]) (by norm_num [sensorAttrFail])

/-- Claim C6: a not-ready LED or sensor prevents the monitor loop from ever
being entered, and among startup early returns those reporting a not-ready
device exit with code 0 while those reporting a failed baseline read or
threshold conversion exit with a nonzero code. -/
theorem claim_C6 : ∀ env : DemoEnv,
    ((env.leds.any (fun l => !l.ready) = true ∨
      env.sensors.any (fun s => !s.ready) = true) →
      startupState (demoStartup env) = none) ∧
    (∀ (c : Int) (out : List Output), demoStartup env = .exit c out →
      (out.any Output.isNotReadyMsg = true → c = 0) ∧
      (out.any Output.isConvFailMsg = true → c ≠ 0)) := by
  intro env
  constructor
  · intro hnr
    simp only [demoStartup]
    cases hled : led_init_loop env.leds with
    | error e => rfl
    | ok states =>
      dsimp only
      rcases hnr with h | h
      · obtain ⟨c, out, hrec⟩ := led_init_loop_not_ready env.leds h
        rw [hled] at hrec
        exact Except.noConfusion hrec
      · obtain ⟨c, out, hrec⟩ := sensor_init_loop_not_ready env.sensors 0 0 h
        rw [hrec]
        rfl
  · intro c out hexit
    simp only [demoStartup] at hexit
    cases hled : led_init_loop env.leds with
    | error e =>
      rw [hled] at hexit
      cases e with
      | mk c2 out2 =>
        dsimp only at hexit
        simp only [StartupResult.exit.injEq] at hexit
        obtain ⟨hc, hout⟩ := hexit
        subst hc
        subst hout
        obtain ⟨hc0, hcf⟩ := led_init_loop_error env.leds c2 out2 hled
        constructor
        · intro _
          exact hc0
        · intro hany
          rw [List.any_append] at hany
          simp [Output.isConvFailMsg, hcf] at hany
    | ok states =>
      rw [hled] at hexit
      dsimp only at hexit
      cases hsens : sensor_init_loop 0 0 env.sensors with
      | error e =>
        rw [hsens] at hexit
        cases e with
        | mk c2 out2 =>
          dsimp only at hexit
          simp only [StartupResult.exit.injEq] at hexit
          obtain ⟨hc, hout⟩ := hexit
          subst hc
          subst hout
          obtain ⟨hn, hcf⟩ := sensor_init_loop_error_markers env.sensors 0 0 c2 out2 hsens
          constructor
          · intro hany
            rw [List.any_append] at hany
            simp only [List.any_cons, List.any_nil, Output.isNotReadyMsg,
              Bool.or_false, Bool.false_or] at hany
            exact hn hany
          · intro hany
            rw [List.any_append] at hany
            simp only [List.any_cons, List.any_nil, Output.isConvFailMsg,
              Bool.or_false, Bool.false_or] at hany
            exact hcf hany
      | ok v =>
        obtain ⟨flags, low, high, out2⟩ := v
        rw [hsens] at hexit
        dsimp only at hexit
        exact StartupResult.noConfusion hexit

/-- Witness for C6: a not-ready sensor keeps the monitor loop from starting,
and a concrete failed baseline read exits with the nonzero code -7. -/
theorem claim_C6_witness :
    startupState (demoStartup envNR) = none ∧ ((-7 : Int) ≠ 0) := by
  constructor
  · exact (claim_C6 envNR).1 (Or.inr (by simp [envNR]))
  · exact ((claim_C6 envRF).2 (-7) outRFW
      (by norm_num [envRF, outRFW, demoStartup, led_init_loop, sensor_init_loop,
        calibrate_step, read_temperature, Except.map])).2
      (by simp [outRFW, Output.isConvFailMsg])

/-- Counterexample to claim C7: one iteration of the generated template's
loop with a single LED whose hardware toggle fails returns the error out of
main, terminating the loop because of that one device's failure. -/
theorem claim_C7_counterexample :
    templateIteration { ledToggles := [-3], thermoReads := [] }
      [{ name := "led0", state := false }] = .error (-3, [.failedToToggle "led0"]) := by
  norm_num [templateIteration, template_led_loop, toggle_led_state]

/-- Claim C7 as amended: in the demo variant the monitor loop indeed
completes every iteration whatever the per-device failures - over any run,
every LED of every iteration still gets its state report - but in the
template variant a single failed LED toggle makes main return, terminating
the loop. -/
theorem claim_C7_amended :
    (∀ (envs : List IterEnv) (st : DemoState),
      (∀ e ∈ envs, e.ledToggles.length = st.led_state.length) →
      (demoRun envs st).2.countP Output.isLedReport =
        envs.length * st.led_state.length) ∧
    (∀ (env : TIterEnv) (leds : List TLed) (t : Int) (led : TLed)
        (rest : List (Int × TLed)),
      env.ledToggles.zip leds = (t, led) :: rest → t < 0 →
      templateIteration env leds = .error (t, [.failedToToggle led.name])) := by
  constructor
  · intro envs
    induction envs with
    | nil => intro st _; simp [demoRun]
    | cons e es ih =>
      intro st hlen
      have hl := hlen e (List.mem_cons_self e es)
      have hlen2 : ∀ e2 ∈ es,
          e2.ledToggles.length = (demoIteration e st).1.led_state.length := by
        intro e2 he2
        rw [demoIteration_state e st hl]
        simpa using hlen e2 (List.mem_cons_of_mem e he2)
      have hlen3 : (demoIteration e st).1.led_state.length = st.led_state.length := by
        rw [demoIteration_state e st hl]; simp
      simp only [demoRun]
      rw [List.countP_append, demoIteration_count e st hl, ih (demoIteration e st).1 hlen2,
        hlen3, List.length_cons, Nat.succ_mul, Nat.add_comm]
  · intro env leds t led rest hzip ht
    simp only [templateIteration]
    rw [hzip]
    simp [template_led_loop, toggle_led_state, ht]

/-- Witness for the amended C7: a concrete demo run with a failing sensor
still reports its LED, and a concrete template iteration with a failing
toggle returns the error. -/
theorem claim_C7_witness :
    (demoRun [cexEnv] cexSt).2.countP Output.isLedReport = 1 ∧
    templateIteration { ledToggles := [-9], thermoReads := [("t0", 0, 0, 25)] }
      [{ name := "ledA", state := true }] = .error (-9, [.failedToToggle "ledA"]) := by
  constructor
  · have h := claim_C7_amended.1 [cexEnv] cexSt (by simp [cexEnv, cexSt])
    simpa [cexSt] using h
  · exact claim_C7_amended.2 { ledToggles := [-9], thermoReads := [("t0", 0, 0, 25)] }
      [{ name := "ledA", state := true }] (-9) { name := "ledA", state := true } []
      (by simp) (by norm_num)

/-- Claim C8: an LED whose stored flag starts true has, after N monitor-loop
iterations, flag true iff N is even: each iteration inverts it exactly once,
whatever the toggle return codes are. -/
theorem claim_C8 : ∀ (envs : List IterEnv) (st : DemoState) (i : Nat),
    (∀ e ∈ envs, e.ledToggles.length = st.led_state.length) →
    st.led_state[i]? = some true →
    (demoRun envs st).1.led_state[i]? = some (envs.length % 2 == 0) := by
  intro envs st i hlen hi
  simpa using demoRun_led_state envs st i true hlen hi

/-- Witness for C8: two iterations return the flag to true, one iteration
leaves it false. -/
theorem claim_C8_witness :
    (demoRun [iterEnvW, iterEnvW] st20).1.led_state[0]? = some true ∧
    (demoRun [iterEnvW] st20).1.led_state[0]? = some false := by
  constructor
  · simpa using claim_C8 [iterEnvW, iterEnvW] st20 0
      (by simp [iterEnvW, st20]) (by simp [st20])
  · simpa using claim_C8 [iterEnvW] st20 0
      (by simp [iterEnvW, st20]) (by simp [st20])

/-- Claim C9: the Alert Dispatcher never mutates program state: for every
invocation, including one whose read fails, the returned state is the input
state; on a failed fetch the only effect is the two failure reports. -/
theorem claim_C9 : ∀ (st : DemoState) (f g : Int) (t : ℚ),
    (temp_alert_handler st f g t).1 = st ∧
    (f < 0 → (temp_alert_handler st f g t).2 =
      [.couldNotFetch f, .readingTempFailed f]) := by
  intro st f g t
  constructor
  · simp only [temp_alert_handler]
    split_ifs <;> rfl
  · intro hf
    simp [temp_alert_handler, read_temperature, hf]

/-- Witness for C9 at a concrete failing read. -/
theorem claim_C9_witness :
    (temp_alert_handler stW (-2) 0 5).1 = stW ∧
    (temp_alert_handler stW (-2) 0 5).2 =
      [.couldNotFetch (-2), .readingTempFailed (-2)] := by
  have h := claim_C9 stW (-2) 0 5
  exact ⟨h.1, h.2 (by norm_num)⟩

/-- Claim C10: the demo monitor loop inverts and reports the stored flag of
an LED even when the hardware toggle fails, while the template variant's
toggle_led_state returns the error before inverting the stored state. -/
theorem claim_C10 :
    (∀ (lt : LedToggle) (s : Bool) (rest : List (LedToggle × Bool)),
      lt.toggleRet < 0 →
      (demo_led_phase ((lt, s) :: rest)).1.head? = some (!s) ∧
      (demo_led_phase ((lt, s) :: rest)).2.take 2 =
        [.failedToToggle lt.name, .ledStateReport lt.name (!s)]) ∧
    (∀ (tr : Int) (led : TLed), tr < 0 →
      toggle_led_state tr led = .error (tr, [.failedToToggle led.name])) := by
  constructor
  · intro lt s rest h
    constructor <;> simp [demo_led_phase, h]
  · intro tr led h
    simp [toggle_led_state, h]

/-- Witness for C10 on a concrete failing toggle. -/
theorem claim_C10_witness :
    ((demo_led_phase [({ name := "led0", toggleRet := -7 }, true)]).1.head? = some false ∧
      (demo_led_phase [({ name := "led0", toggleRet := -7 }, true)]).2.take 2 =
        [.failedToToggle "led0", .ledStateReport "led0" false]) ∧
    toggle_led_state (-7) { name := "led1", state := true } =
      .error (-7, [.failedToToggle "led1"]) := by
  refine ⟨?_, ?_⟩
  · have h := claim_C10.1 { name := "led0", toggleRet := -7 } true [] (by norm_num)
    simpa using h
  · exact claim_C10.2 (-7) { name := "led1", state := true } (by norm_num)

end Blinky
